import Mathlib

/-!
Verification of the NeuraX compute fabric against its specification.

The definitions below are a shallow embedding of the repository's code:
* `src/server/node_registry.py` — SQLite node registry (rows become a `List Node`;
  ISO-8601 timestamps are totally ordered, so they are modelled as `Int`).
* `src/server/server.py` — job submission, execution and finalization.
* `src/compute/compute_node.py` — the worker's data-channel message handler.
The cryptographic primitives (`crypto_utils.CryptoSession`) are not part of the
sources and are modelled symbolically from the specification (§4.3).
-/

namespace NeuraX

/-! ## Node registry (`src/server/node_registry.py`)

A registry row.  Column values follow the `nodes` table schema; `last_heartbeat`
and `registered_at` are ISO strings in SQLite compared lexicographically, which
agrees with time order, so they are embedded as `Int`. -/

structure Node where
  node_id : String
  tailscale_ip : Option String
  device_name : String
  gpu : String
  vram_gb : Int
  installed_tools : List String
  status : String
  registered_at : Int
  last_heartbeat : Int
  socketio_sid : Option String
deriving DecidableEq, Repr

/-- `register_node`: `INSERT OR REPLACE` keyed by the primary key `node_id`.
Both `registered_at` and `last_heartbeat` are set to `now`. -/
def register_node (r : List Node) (now : Int) (node_id : String)
    (tailscale_ip : Option String) (device_name gpu : String) (vram_gb : Int)
    (installed_tools : List String) (status : String)
    (socketio_sid : Option String) : List Node :=
  let newNode : Node :=
    { node_id := node_id, tailscale_ip := tailscale_ip, device_name := device_name,
      gpu := gpu, vram_gb := vram_gb, installed_tools := installed_tools,
      status := status, registered_at := now, last_heartbeat := now,
      socketio_sid := socketio_sid }
  if r.any (fun n => n.node_id = node_id) then
    r.map (fun n => if n.node_id = node_id then newNode else n)
  else
    r ++ [newNode]

/-- `update_heartbeat`: `UPDATE nodes SET last_heartbeat = now, status = 'ready'
WHERE node_id = ?`.  The returned `Bool` is `cursor.rowcount > 0`. -/
def update_heartbeat (r : List Node) (node_id : String) (now : Int) :
    Bool × List Node :=
  (r.any (fun n => n.node_id = node_id),
   r.map (fun n =>
     if n.node_id = node_id then { n with last_heartbeat := now, status := "ready" }
     else n))

/-- The staleness cutoff `datetime.utcnow() - timedelta(seconds=heartbeat_timeout)`. -/
def heartbeat_cutoff (now timeout : Int) : Int := now - timeout

/-- The `WHERE last_heartbeat < cutoff AND status != 'offline'` predicate of
`cleanup_stale_nodes`. -/
def node_is_stale (now timeout : Int) (n : Node) : Bool :=
  decide (n.last_heartbeat < heartbeat_cutoff now timeout) &&
  decide (n.status ≠ "offline")

/-- `cleanup_stale_nodes` (the liveness sweep): set `status = 'offline'` for every
stale row; return the number of rows changed.  No row is deleted. -/
def cleanup_stale_nodes (r : List Node) (now timeout : Int) : Nat × List Node :=
  ((r.filter (node_is_stale now timeout)).length,
   r.map (fun n =>
     if node_is_stale now timeout n then { n with status := "offline" } else n))

/-- Insertion step for `ORDER BY last_heartbeat DESC`. -/
def insertByHeartbeatDesc (n : Node) : List Node → List Node
  | [] => [n]
  | m :: ms =>
    if m.last_heartbeat ≤ n.last_heartbeat then n :: m :: ms
    else m :: insertByHeartbeatDesc n ms

/-- `ORDER BY last_heartbeat DESC` (insertion sort; ordering only). -/
def sortByHeartbeatDesc : List Node → List Node
  | [] => []
  | n :: ns => insertByHeartbeatDesc n (sortByHeartbeatDesc ns)

/-- `get_all_nodes`: with `active_only`, `SELECT * FROM nodes WHERE
last_heartbeat > cutoff ORDER BY last_heartbeat DESC`. -/
def get_all_nodes (r : List Node) (now timeout : Int) (active_only : Bool) :
    List Node :=
  if active_only then
    sortByHeartbeatDesc
      (r.filter (fun n => decide (n.last_heartbeat > heartbeat_cutoff now timeout)))
  else
    sortByHeartbeatDesc r

/-! ## Job execution engine (`src/server/server.py`) -/

/-- The result dictionary returned by the `execute_*` functions.  A missing
`output_files` key reads as `[]` (`result.get('output_files', [])`). -/
structure ExecResult where
  exit_code : Int
  stdout : String
  stderr : String
  output_files : List String := []
deriving DecidableEq, Repr

/-- An entry of the in-memory `jobs` table. -/
structure Job where
  job_id : String
  mode : String
  status : String
  created_at : String
  code : String
  file_path : String
  command : String
  args : String
  logs : List String
  output_files : List String
  exit_code : Option Int
  runtime : Option Int
  session_id : Option String := none
  cell_id : Option String := none
deriving DecidableEq, Repr

/-- Lookup in a string-keyed table (Python `dict` read). -/
def table_lookup {β : Type} : List (String × β) → String → Option β
  | [], _ => none
  | (k, v) :: rest, id => if k = id then some v else table_lookup rest id

/-- Assignment in a string-keyed table (Python `dict[key] = value`). -/
def table_insert {β : Type} : List (String × β) → String → β → List (String × β)
  | [], id, v => [(id, v)]
  | (k, w) :: rest, id, v =>
    if k = id then (id, v) :: rest else (k, w) :: table_insert rest id v

/-- Deletion from a string-keyed table (Python `del dict[key]`; dict keys are
unique, so removing every binding of the key is the same operation). -/
def table_erase {β : Type} (t : List (String × β)) (id : String) :
    List (String × β) :=
  t.filter (fun p => decide (p.1 ≠ id))

/-- The `valid_modes` list of the `/execute` endpoint. -/
def valid_modes : List String := ["ai", "blender", "autocad", "custom"]

/-- The JSON body of a `/execute` request; absent keys are `none`. -/
structure ExecRequest where
  mode : Option String := none
  code : Option String := none
  file_path : Option String := none
  command : Option String := none
  args : Option String := none
  job_id : Option String := none
deriving DecidableEq, Repr

/-- HTTP outcome of the `/execute` endpoint. -/
structure SubmitResponse where
  http_status : Nat
  job_id : Option String
deriving DecidableEq, Repr

/-- `data.get('job_id') or str(uuid.uuid4())`: a missing or empty (falsy)
field yields the fresh UUID `fresh_id`. -/
def exec_job_id (data : ExecRequest) (fresh_id : String) : String :=
  match data.job_id with
  | some s => if s = "" then fresh_id else s
  | none => fresh_id

/-- The job dictionary built by the `/execute` endpoint. -/
def exec_job_record (data : ExecRequest) (job_id now : String) : Job :=
  { job_id := job_id, mode := data.mode.getD "ai", status := "queued",
    created_at := now, code := data.code.getD "",
    file_path := data.file_path.getD "", command := data.command.getD "",
    args := data.args.getD "", logs := [], output_files := [],
    exit_code := none, runtime := none }

/-- The `/execute` endpoint (`execute_job`): validate the mode, create the job
in `queued` state, schedule execution, reply `202`; an unknown mode replies
`400` without touching the job table.  `fresh_id` stands for `uuid.uuid4()`. -/
def execute_job (jobs : List (String × Job)) (data : ExecRequest)
    (fresh_id now : String) : SubmitResponse × List (String × Job) :=
  let mode := data.mode.getD "ai"
  let job_id := exec_job_id data fresh_id
  if mode ∈ valid_modes then
    ({ http_status := 202, job_id := some job_id },
     table_insert jobs job_id (exec_job_record data job_id now))
  else
    ({ http_status := 400, job_id := none }, jobs)

/-- Greedy word scanner over the characters of a string; `cur` holds the
current word reversed. -/
def pySplitAux (cur : List Char) : List Char → List (List Char)
  | [] => if cur = [] then [] else [cur.reverse]
  | c :: cs =>
    if c.isWhitespace then
      if cur = [] then pySplitAux [] cs else cur.reverse :: pySplitAux [] cs
    else pySplitAux (c :: cur) cs

/-- Python `str.split()`: split on runs of whitespace, dropping empty pieces. -/
def pySplit (s : String) : List String :=
  (pySplitAux [] s.data).map List.asString

/-- The CLI allow-list of `execute_custom` (`safe_commands`). -/
def safe_commands : List String := ["echo", "ls", "pwd", "date"]

/-- What `execute_custom` decides before any subprocess is spawned: run the
argv, refuse with exit code `-1`, or raise `IndexError` on an empty command. -/
inductive CustomDecision where
  | rejected (result : ExecResult)
  | run (argv : List String)
  | indexError
deriving DecidableEq, Repr

/-- The allow-list gate of `execute_custom`: only a command whose first word is
in `safe_commands` reaches `subprocess.run`. -/
def execute_custom_decision (command args : String) : CustomDecision :=
  match pySplit command with
  | [] => .indexError
  | head :: _ =>
    if head ∈ safe_commands then
      .run (if args ≠ "" then pySplit command ++ pySplit args else pySplit command)
    else
      .rejected { exit_code := -1, stdout := "",
                  stderr := "Unsafe command: " ++ head }

/-- The final `job_status` Socket.IO event payload; keys absent from the
emitted dict read as `none` / `[]`. -/
structure JobStatusEvent where
  job_id : String
  status : String
  runtime : Option Int
  exit_code : Option Int
  output_files : List String
  error : Option String := none
deriving DecidableEq, Repr

/-- The `cell_output` Socket.IO event payload. -/
structure CellOutputEvent where
  cell_id : Option String
  session_id : Option String
  output : String
  status : String
  exit_code : Option Int := none
deriving DecidableEq, Repr

/-- `add_log`: append a line to the job's log list. -/
def add_log_pure (j : Job) (msg : String) : Job :=
  { j with logs := j.logs ++ [msg] }

/-- The completion steps of `execute_job_async` once the mode handler returned
`result`: record runtime and exit code, set the terminal state (`completed`
iff exit code is 0), surface stdout/stderr into the log on failure, and build
the final `job_status` event.  `timeStr` stands for the wall-clock text. -/
def finalize_job (job : Job) (result : ExecResult) (runtime : Int)
    (timeStr : String) : Job × JobStatusEvent :=
  let j1 : Job :=
    { job with
      runtime := some runtime
      exit_code := some result.exit_code
      status := if result.exit_code = 0 then "completed" else "failed"
      output_files := result.output_files }
  let j2 :=
    if result.stdout ≠ "" ∧ result.exit_code ≠ 0 then
      add_log_pure j1 ("[STDOUT]\n" ++ result.stdout)
    else j1
  let j3 :=
    if result.stderr ≠ "" then add_log_pure j2 ("[STDERR]\n" ++ result.stderr)
    else j2
  let j4 := add_log_pure j3
    ("[" ++ timeStr ++ "] Job completed in " ++ toString runtime ++
     "s (exit code: " ++ toString result.exit_code ++ ")")
  (j4,
   { job_id := job.job_id, status := j4.status, runtime := some runtime,
     exit_code := some result.exit_code, output_files := result.output_files })

/-- The completion steps of `execute_notebook_cell_async`: record runtime and
exit code, set the terminal state, and build the final `cell_output` event
(stdout plus a `[STDERR]` block, falling back to a success line when blank). -/
def finalize_notebook_cell (job : Job) (result : ExecResult) (runtime : Int)
    (timeStr : String) : Job × CellOutputEvent :=
  let j1 : Job :=
    { job with
      runtime := some runtime
      exit_code := some result.exit_code
      status := if result.exit_code = 0 then "completed" else "failed" }
  let final_output0 :=
    if result.stderr ≠ "" then
      result.stdout ++ "\n[STDERR]\n" ++ result.stderr
    else result.stdout
  let final_output :=
    if final_output0.trim = "" then
      "[" ++ timeStr ++ "] Execution completed successfully (exit code: " ++
        toString result.exit_code ++ ")"
    else final_output0
  (j1,
   { cell_id := job.cell_id, session_id := job.session_id,
     output := final_output, status := j1.status,
     exit_code := some result.exit_code })

/-- The `except` branch of `execute_job_async`: on an engine exception the job
is set to `failed` and an error line is logged, but runtime and exit-code are
never written; the emitted `job_status` event carries only the error. -/
def fail_job_on_exception (job : Job) (err : String) : Job × JobStatusEvent :=
  ({ job with status := "failed", logs := job.logs ++ ["[ERROR] " ++ err] },
   { job_id := job.job_id, status := "failed", runtime := none,
     exit_code := none, output_files := [], error := some err })

/-- The execution step of `execute_job_async` for a `custom` job, around the
allow-list gate of `execute_custom`: an empty command raises `IndexError`
(`cmd_parts[0]` on an empty list, before `execute_custom`'s try block), which
the engine's exception handler turns into a terminal `failed`; a rejected or
spawned command goes through normal finalization.  `run_argv` stands for the
`subprocess.run` call on the allowed argv. -/
def run_custom_job (job : Job) (run_argv : List String → ExecResult)
    (rt : Int) (t : String) : Job × JobStatusEvent :=
  match execute_custom_decision job.command job.args with
  | .indexError => fail_job_on_exception job "list index out of range"
  | .rejected r => finalize_job job r rt t
  | .run argv => finalize_job job (run_argv argv) rt t

/-- The deadline of the Docker path of `execute_python_code`:
`120 if ephemeral else 300` seconds. -/
def timeout_seconds (ephemeral : Bool) : Nat := if ephemeral then 120 else 300

/-- The `subprocess.TimeoutExpired` handler of the Docker path of
`execute_python_code`.  The captured partial output on the exception object is
never read: the returned result has empty stdout. -/
def docker_timeout_result (captured_stdout captured_stderr : String)
    (ephemeral : Bool) : ExecResult :=
  { exit_code := -1, stdout := "",
    stderr := "Execution timeout (" ++ toString (timeout_seconds ephemeral) ++ "s)",
    output_files := [] }

/-- Output capture of the Docker path of `execute_python_code`: the first list
holds the files actually written under `outputs/<job-id>/` (each stream only
when non-empty), the second the `output_files` names put on the result
(`['stdout.txt'] + (['stderr.txt'] if result.stderr else [])`). -/
def save_outputs (stdout stderr : String) : List String × List String :=
  ((if stdout ≠ "" then ["stdout.txt"] else []) ++
     (if stderr ≠ "" then ["stderr.txt"] else []),
   ["stdout.txt"] ++ (if stderr ≠ "" then ["stderr.txt"] else []))

/-- Which execution path `execute_python_code` takes, with its deadline. -/
inductive ExecPath where
  | docker (deadline : Nat)
  | localFallback (deadline : Nat)
deriving DecidableEq, Repr

/-- The `docker_flag` computation of `execute_python_code`: the
`NEURAX_FORCE_LOCAL_EXEC` / `NEURAX_LOCAL_NO_DOCKER` environment flags force
local execution; otherwise the startup probe `docker_available` decides. -/
def docker_flag (force_local local_no_docker docker_available : Bool) : Bool :=
  if force_local || local_no_docker then false else docker_available

/-- The path taken by `execute_python_code`: the Docker sandbox with the
300 s / 120 s deadline when `docker_flag` holds, otherwise the direct local
subprocess with `timeout=60` — unconditionally, with no policy gate. -/
def choose_exec_path (force_local local_no_docker docker_available ephemeral :
    Bool) : ExecPath :=
  if docker_flag force_local local_no_docker docker_available then
    .docker (timeout_seconds ephemeral)
  else
    .localFallback 60

/-! ## Compute node (`src/compute/compute_node.py`)

The cryptography lives in `crypto_utils.py`, which is not among the sources;
it is modelled symbolically from the specification (§4.3). -/

/-- A symmetric-key payload travelling on the data channel, after JSON
round-tripping. -/
inductive PlainData where
  | task (code : String) (task_type : String)
  | result (exit_code : Int) (stdout stderr : String) (execution_time : Nat)
deriving DecidableEq, Repr

/-- Modelled from the spec: the symmetric session key `K` wrapped under an
asymmetric public key (step 3 of the bootstrap protocol). -/
structure RsaWrapped where
  under_public_key : String
  wrapped_key : String
deriving DecidableEq, Repr

/-- Modelled from the spec: an authenticated symmetric ciphertext produced
under session key `K`; decryption succeeds only with the same key. -/
structure AesCiphertext where
  under_key : String
  plain : PlainData
deriving DecidableEq, Repr

/-- Modelled from the spec: `crypto_utils.CryptoSession` is missing from the
sources.  It holds the node's asymmetric keypair (identified by its public
key) and, once established, the symmetric session key. -/
structure CryptoSession where
  public_key_pem : String
  aes_key : Option String
deriving DecidableEq, Repr

/-- Modelled from the spec: `CryptoSession()` generates a fresh keypair; no
symmetric key yet. -/
def CryptoSession.fresh (pub : String) : CryptoSession :=
  { public_key_pem := pub, aes_key := none }

/-- Modelled from the spec: `crypto.get_public_key_pem()`. -/
def get_public_key_pem (c : CryptoSession) : String := c.public_key_pem

/-- Modelled from the spec: `crypto.exchange_aes_key` decrypts the wrapped key
with the session's private key; a key wrapped under a different public key
fails (`none`, the exception path). -/
def exchange_aes_key (c : CryptoSession) (w : RsaWrapped) :
    Option CryptoSession :=
  if w.under_public_key = c.public_key_pem then
    some { c with aes_key := some w.wrapped_key }
  else none

/-- Modelled from the spec: `crypto.decrypt_payload`; fails without an
established key or on a key mismatch (tag failure). -/
def decrypt_payload (c : CryptoSession) (ct : AesCiphertext) :
    Option PlainData :=
  match c.aes_key with
  | none => none
  | some k => if ct.under_key = k then some ct.plain else none

/-- Modelled from the spec: `crypto.encrypt_payload` under the session key. -/
def encrypt_payload (c : CryptoSession) (p : PlainData) :
    Option AesCiphertext :=
  c.aes_key.map (fun k => { under_key := k, plain := p })

/-- One entry of the compute node's `self.sessions` table. -/
structure NodeSession where
  crypto : CryptoSession
  remote_public_key : Option String
deriving DecidableEq, Repr

/-- A parsed incoming data-channel message (`_handle_message` input). -/
inductive ClientMsg where
  | keyExchangeSendPublicKey (public_key : String)
  | keyExchangeSendAesKey (encrypted_aes_key : RsaWrapped)
  | encryptedTask (encrypted_data : AesCiphertext)
  | other (msg_type : String)
deriving DecidableEq, Repr

/-- An outgoing data-channel message sent by the node. -/
inductive NodeMsg where
  | keyExchangeSendPublicKey (public_key : String)
  | keyExchangeAesKeyReceived
  | encryptedResult (encrypted_data : AesCiphertext)
deriving DecidableEq, Repr

/-- The result of `_execute_in_sandbox`. -/
structure SandboxResult where
  exit_code : Int
  stdout : String
  stderr : String
  execution_time : Nat
deriving DecidableEq, Repr

/-- `task_json.get('code', '')`. -/
def task_code : PlainData → String
  | .task c _ => c
  | .result _ _ _ _ => ""

/-- `task_json.get('type', 'python_code')`. -/
def task_type_of : PlainData → String
  | .task _ t => t
  | .result _ _ _ _ => "python_code"

/-- The result dictionary the node serializes and encrypts after running a
task (`result_json` in `_handle_message`). -/
def sandbox_result_plain (run_sandbox : String → String → SandboxResult)
    (code ttype : String) : PlainData :=
  PlainData.result (run_sandbox code ttype).exit_code
    (run_sandbox code ttype).stdout (run_sandbox code ttype).stderr
    (run_sandbox code ttype).execution_time

/-- Everything `_handle_message` did: the new session table, the messages sent
on the channel, the `(code, task_type)` pairs handed to the sandbox, and
whether the data channel was closed. -/
structure HandleResult where
  sessions : List (String × NodeSession)
  sent : List NodeMsg
  executed : List (String × String)
  channel_closed : Bool
deriving Repr

/-- `_handle_message`: the worker side of the bootstrap protocol and the
encrypted-task path.  An unknown session is logged and dropped; any failing
cryptographic step is the exception path (nothing sent, state kept).  After a
task's encrypted result is sent the channel is closed and the session deleted.
`run_sandbox` stands for `_execute_in_sandbox`. -/
def handle_message (run_sandbox : String → String → SandboxResult)
    (sessions : List (String × NodeSession)) (sid : String) (msg : ClientMsg) :
    HandleResult :=
  match table_lookup sessions sid with
  | none => { sessions := sessions, sent := [], executed := [], channel_closed := false }
  | some s =>
    match msg with
    | .keyExchangeSendPublicKey pk =>
        { sessions := table_insert sessions sid { s with remote_public_key := some pk },
          sent := [.keyExchangeSendPublicKey (get_public_key_pem s.crypto)],
          executed := [], channel_closed := false }
    | .keyExchangeSendAesKey w =>
        match exchange_aes_key s.crypto w with
        | none =>
            { sessions := sessions, sent := [], executed := [], channel_closed := false }
        | some c' =>
            { sessions := table_insert sessions sid { s with crypto := c' },
              sent := [.keyExchangeAesKeyReceived],
              executed := [], channel_closed := false }
    | .encryptedTask ct =>
        match decrypt_payload s.crypto ct with
        | none =>
            { sessions := sessions, sent := [], executed := [], channel_closed := false }
        | some plain =>
            let code := task_code plain
            let ttype := task_type_of plain
            let res := run_sandbox code ttype
            match encrypt_payload s.crypto
                (PlainData.result res.exit_code res.stdout res.stderr
                  res.execution_time) with
            | none =>
                { sessions := sessions, sent := [],
                  executed := [(code, ttype)], channel_closed := false }
            | some ct' =>
                { sessions := table_erase sessions sid,
                  sent := [.encryptedResult ct'],
                  executed := [(code, ttype)], channel_closed := true }
    | .other _ =>
        { sessions := sessions, sent := [], executed := [], channel_closed := false }

/-! ## Concrete test data -/

/-- A concrete registry row used for witnesses. -/
def regNode0 : Node :=
  { node_id := "w1", tailscale_ip := none, device_name := "dev", gpu := "N/A",
    vram_gb := 0, installed_tools := [], status := "offline",
    registered_at := 0, last_heartbeat := 0, socketio_sid := none }

/-- A worker that registered at time 0 and then went silent. -/
def c3node : Node :=
  { node_id := "w1", tailscale_ip := none, device_name := "dev", gpu := "N/A",
    vram_gb := 0, installed_tools := ["python3"], status := "ready",
    registered_at := 0, last_heartbeat := 0, socketio_sid := none }

/-- A worker whose heartbeat is stale at time 400 with τ = 300. -/
def staleNode : Node :=
  { node_id := "w2", tailscale_ip := some "100.0.0.2", device_name := "dev2",
    gpu := "N/A", vram_gb := 0, installed_tools := [], status := "busy",
    registered_at := 0, last_heartbeat := 50, socketio_sid := none }

/-- The `/execute` body of spec scenario 4: a cli (`custom`) job whose command
is not in the allow-list. -/
def c2request : ExecRequest :=
  { mode := some "custom", command := some "rm -rf /" }

/-- A running job used to exercise the finalization step. -/
def testJob : Job :=
  { job_id := "j1", mode := "ai", status := "running", created_at := "t0",
    code := "", file_path := "", command := "", args := "", logs := [],
    output_files := [], exit_code := none, runtime := none }

/-- A running `custom` job whose command is empty: `cmd_parts[0]` raises
`IndexError` inside the engine. -/
def emptyCmdJob : Job :=
  { job_id := "j2", mode := "custom", status := "running", created_at := "t0",
    code := "", file_path := "", command := "", args := "", logs := [],
    output_files := [], exit_code := none, runtime := none }

/-- A `subprocess.run` stub used by closed statements about `custom` jobs. -/
def noopRunArgv : List String → ExecResult :=
  fun _ => { exit_code := 0, stdout := "", stderr := "" }

/-- A node session fresh out of the datachannel handler: keypair generated, no
symmetric key yet. -/
def sess0 : NodeSession :=
  { crypto := CryptoSession.fresh "WPUB", remote_public_key := none }

/-- A node session whose key exchange has completed. -/
def sessK : NodeSession :=
  { crypto := { public_key_pem := "WPUB", aes_key := some "K1" },
    remote_public_key := some "CPUB" }

/-- A sandbox stub used by witnesses. -/
def noopSandbox : String → String → SandboxResult :=
  fun _ _ => { exit_code := 0, stdout := "", stderr := "", execution_time := 0 }

/-! ## Helper lemmas -/

lemma cleanup_length (r : List Node) (now timeout : Int) :
    (cleanup_stale_nodes r now timeout).2.length = r.length := by
  simp [cleanup_stale_nodes]

lemma update_heartbeat_length (r : List Node) (node_id : String) (now : Int) :
    (update_heartbeat r node_id now).2.length = r.length := by
  simp [update_heartbeat]

lemma mem_insertByHeartbeatDesc {m n : Node} {l : List Node} :
    m ∈ insertByHeartbeatDesc n l ↔ m = n ∨ m ∈ l := by
  induction l with
  | nil => simp [insertByHeartbeatDesc]
  | cons x xs ih =>
    by_cases h : x.last_heartbeat ≤ n.last_heartbeat
    · simp [insertByHeartbeatDesc, h]
    · simp [insertByHeartbeatDesc, h, ih]
      tauto

lemma mem_sortByHeartbeatDesc {m : Node} {l : List Node} :
    m ∈ sortByHeartbeatDesc l ↔ m ∈ l := by
  induction l with
  | nil => simp [sortByHeartbeatDesc]
  | cons x xs ih => simp [sortByHeartbeatDesc, mem_insertByHeartbeatDesc, ih]

lemma mem_get_all_nodes_active {m : Node} {r : List Node} {now timeout : Int} :
    m ∈ get_all_nodes r now timeout true ↔
      m ∈ r ∧ m.last_heartbeat > heartbeat_cutoff now timeout := by
  simp [get_all_nodes, mem_sortByHeartbeatDesc, List.mem_filter]

lemma map_eq_self_of {α : Type} (l : List α) (f : α → α)
    (h : ∀ a ∈ l, f a = a) : l.map f = l := by
  induction l with
  | nil => rfl
  | cons x xs ih =>
    simp only [List.map_cons, h x (List.mem_cons_self x xs)]
    rw [ih fun a ha => h a (List.mem_cons_of_mem x ha)]

lemma table_lookup_insert {β : Type} (t : List (String × β)) (id : String)
    (v : β) : table_lookup (table_insert t id v) id = some v := by
  induction t with
  | nil => simp [table_insert, table_lookup]
  | cons p rest ih =>
    by_cases h : p.1 = id
    · simp [table_insert, table_lookup, h]
    · simp [table_insert, table_lookup, h, ih]

lemma table_lookup_erase {β : Type} (t : List (String × β)) (id : String) :
    table_lookup (table_erase t id) id = none := by
  induction t with
  | nil => simp [table_erase, table_lookup]
  | cons p rest ih =>
    by_cases h : p.1 = id
    · simpa [table_erase, h] using ih
    · simpa [table_erase, table_lookup, h] using ih

lemma handle_message_no_session (run_sandbox : String → String → SandboxResult)
    (sessions : List (String × NodeSession)) (sid : String) (msg : ClientMsg)
    (h : table_lookup sessions sid = none) :
    handle_message run_sandbox sessions sid msg =
      ⟨sessions, [], [], false⟩ := by
  simp only [handle_message, h]

lemma finalize_job_status (job : Job) (result : ExecResult) (rt : Int)
    (t : String) :
    (finalize_job job result rt t).1.status =
      (if result.exit_code = 0 then "completed" else "failed") := by
  simp only [finalize_job, add_log_pure]
  split <;> split <;> rfl

lemma finalize_job_exit (job : Job) (result : ExecResult) (rt : Int)
    (t : String) :
    (finalize_job job result rt t).1.exit_code = some result.exit_code := by
  simp only [finalize_job, add_log_pure]
  split <;> split <;> rfl

lemma finalize_job_runtime (job : Job) (result : ExecResult) (rt : Int)
    (t : String) :
    (finalize_job job result rt t).1.runtime = some rt := by
  simp only [finalize_job, add_log_pure]
  split <;> split <;> rfl

/-! ## Claim theorems -/

/-- Claim C7: `heartbeat(worker-id)` on an existing entry sets
`last-heartbeat = now` and `status = ready` and reports success, leaving every
other entry untouched; on a missing entry it reports failure and leaves the
registry unchanged (no auto-create). -/
theorem heartbeat_spec (r : List Node) (id : String) (now : Int) :
    ((∀ n ∈ r, n.node_id ≠ id) → update_heartbeat r id now = (false, r)) ∧
    ((∃ n ∈ r, n.node_id = id) →
      (update_heartbeat r id now).1 = true ∧
      (update_heartbeat r id now).2.length = r.length ∧
      (∀ m ∈ (update_heartbeat r id now).2,
        m.node_id = id → m.status = "ready" ∧ m.last_heartbeat = now) ∧
      (∀ i (h : i < r.length), (r.get ⟨i, h⟩).node_id ≠ id →
        (update_heartbeat r id now).2.get
          ⟨i, by rw [update_heartbeat_length]; exact h⟩ = r.get ⟨i, h⟩)) := by
  constructor
  · intro habs
    simp only [update_heartbeat, Prod.mk.injEq]
    constructor
    · simp only [List.any_eq_false, decide_eq_true_eq]
      exact habs
    · apply map_eq_self_of
      intro n hn
      rw [if_neg (habs n hn)]
  · rintro ⟨n, hn, hid⟩
    refine ⟨?_, update_heartbeat_length r id now, ?_, ?_⟩
    · simp only [update_heartbeat, List.any_eq_true, decide_eq_true_eq]
      exact ⟨n, hn, hid⟩
    · intro m hm hmid
      simp only [update_heartbeat, List.mem_map] at hm
      obtain ⟨a, _, ha⟩ := hm
      by_cases h : a.node_id = id
      · rw [if_pos h] at ha
        rw [← ha]
        exact ⟨rfl, rfl⟩
      · rw [if_neg h] at ha
        rw [← ha] at hmid
        exact absurd hmid h
    · intro i h hne
      simp only [update_heartbeat, List.get_eq_getElem, List.getElem_map]
      rw [if_neg]
      simpa [List.get_eq_getElem] using hne

/-- Witness for C7 at a concrete registry. -/
theorem heartbeat_spec_w :
    (update_heartbeat [regNode0] "w1" 5).1 = true ∧
    (∀ m ∈ (update_heartbeat [regNode0] "w1" 5).2,
      m.node_id = "w1" → m.status = "ready" ∧ m.last_heartbeat = 5) := by
  have h := (heartbeat_spec [regNode0] "w1" 5).2
    ⟨regNode0, by decide, by decide⟩
  exact ⟨h.1, h.2.2.1⟩

/-- Claim C8: one sweep pass sets `status = offline` for exactly the entries
whose status is not `offline` and whose last-heartbeat age exceeds τ, deletes
no row, and leaves every other entry unchanged. -/
theorem sweep_spec (r : List Node) (now timeout : Int) :
    (cleanup_stale_nodes r now timeout).2.length = r.length ∧
    (∀ n : Node, node_is_stale now timeout n = true ↔
      (now - n.last_heartbeat > timeout ∧ n.status ≠ "offline")) ∧
    (∀ i (h : i < r.length),
      (cleanup_stale_nodes r now timeout).2.get
          ⟨i, by rw [cleanup_length]; exact h⟩ =
        (if node_is_stale now timeout (r.get ⟨i, h⟩) then
          { r.get ⟨i, h⟩ with status := "offline" } else r.get ⟨i, h⟩)) := by
  refine ⟨cleanup_length r now timeout, ?_, ?_⟩
  · intro n
    simp only [node_is_stale, heartbeat_cutoff, Bool.and_eq_true,
      decide_eq_true_eq]
    constructor
    · rintro ⟨h1, h2⟩
      exact ⟨by omega, h2⟩
    · rintro ⟨h1, h2⟩
      exact ⟨by omega, h2⟩
  · intro i h
    simp [cleanup_stale_nodes, List.get_eq_getElem, List.getElem_map]

/-- Witness for C8: the sweep at time 400 (τ = 300) demotes a worker whose
last heartbeat was at time 50. -/
theorem sweep_spec_w :
    (cleanup_stale_nodes [staleNode] 400 300).2.get ⟨0, by decide⟩ =
      { staleNode with status := "offline" } := by
  have h := (sweep_spec [staleNode] 400 300).2.2 0 (by decide)
  rw [h]
  decide

/-- Claim C3 counterexample: a worker swept offline at time 400 (τ = 300)
reappears in the active-only listing with status `ready` after a plain
heartbeat at time 401 — no fresh `register` event is needed, contradicting the
claim that only `register` restores eligibility. -/
theorem offline_requires_register_cex :
    ((cleanup_stale_nodes [c3node] 400 300).2.map Node.status = ["offline"]) ∧
    ((get_all_nodes
        (update_heartbeat (cleanup_stale_nodes [c3node] 400 300).2 "w1" 401).2
        402 300 true).map (fun n => (n.node_id, n.status)) =
      [("w1", "ready")]) := by
  decide

/-- Claim C3 (amended): a worker marked offline by the sweep is absent from
the active-only listing while its heartbeat stays stale, and it returns to
`ready` on either a fresh register event or a plain heartbeat — heartbeat
alone suffices, not only register. -/
theorem offline_dispatch_amended (r : List Node) (now timeout : Int)
    (i : Nat) (h : i < r.length)
    (hstale : node_is_stale now timeout (r.get ⟨i, h⟩) = true) :
    ((cleanup_stale_nodes r now timeout).2.get
        ⟨i, by rw [cleanup_length]; exact h⟩).status = "offline" ∧
    ({ r.get ⟨i, h⟩ with status := "offline" } ∉
      get_all_nodes (cleanup_stale_nodes r now timeout).2 now timeout true) ∧
    (∀ now2 : Int,
      ((update_heartbeat (cleanup_stale_nodes r now timeout).2
          (r.get ⟨i, h⟩).node_id now2).2.get
        ⟨i, by rw [update_heartbeat_length, cleanup_length]; exact h⟩).status =
        "ready") := by
  have hlt : (r.get ⟨i, h⟩).last_heartbeat < heartbeat_cutoff now timeout := by
    have := hstale
    simp only [node_is_stale, Bool.and_eq_true, decide_eq_true_eq] at this
    exact this.1
  have hstale2 : node_is_stale now timeout r[i] = true := by
    simpa [List.get_eq_getElem] using hstale
  refine ⟨?_, ?_, ?_⟩
  · simp [cleanup_stale_nodes, List.get_eq_getElem, List.getElem_map, hstale2]
  · intro hmem
    rw [mem_get_all_nodes_active] at hmem
    have : ({ r.get ⟨i, h⟩ with status := "offline" } : Node).last_heartbeat =
        (r.get ⟨i, h⟩).last_heartbeat := rfl
    omega
  · intro now2
    simp [update_heartbeat, cleanup_stale_nodes, List.get_eq_getElem,
      List.getElem_map, hstale2]

/-- Witness for the amended C3 at a concrete registry. -/
theorem offline_dispatch_amended_w :
    node_is_stale 400 300 ([c3node].get ⟨0, by decide⟩) = true ∧
    ((cleanup_stale_nodes [c3node] 400 300).2.get ⟨0, by decide⟩).status =
      "offline" ∧
    ((update_heartbeat (cleanup_stale_nodes [c3node] 400 300).2
        ([c3node].get ⟨0, by decide⟩).node_id 401).2.get
      ⟨0, by decide⟩).status = "ready" := by
  refine ⟨by decide, ?_, ?_⟩
  · exact (offline_dispatch_amended [c3node] 400 300 0 (by decide)
      (by decide)).1
  · exact (offline_dispatch_amended [c3node] 400 300 0 (by decide)
      (by decide)).2.2 401

/-- Claim C1 counterexample: with no fallback-policy flag set and the
container runtime unavailable, `execute_python_code` still takes the
direct-subprocess fallback — no `infrastructure-error` — and the fallback
deadline is 60 s, not the sandbox's 300 s. -/
theorem exec_fallback_cex :
    choose_exec_path false false false false = ExecPath.localFallback 60 ∧
    choose_exec_path false false false false ≠ ExecPath.docker 300 ∧
    choose_exec_path false false false true ≠ ExecPath.docker 120 ∧
    (60 : Nat) ≠ 300 := by
  decide

/-- Claim C1 (amended): when the container runtime is unavailable, execution
always falls back to a direct subprocess (no policy flag gates it), and the
fallback enforces a 60 s deadline instead of the sandboxed path's deadline;
the sandboxed path itself uses 300 s (120 s for notebook cells). -/
theorem exec_fallback_amended (force_local local_no_docker ephemeral : Bool) :
    choose_exec_path force_local local_no_docker false ephemeral =
      ExecPath.localFallback 60 ∧
    (docker_flag force_local local_no_docker true = true →
      choose_exec_path force_local local_no_docker true ephemeral =
        ExecPath.docker (if ephemeral then 120 else 300)) := by
  constructor
  · simp [choose_exec_path, docker_flag]
  · intro hf
    simp [choose_exec_path, hf, timeout_seconds]

/-- Witness for the amended C1 at concrete flag settings. -/
theorem exec_fallback_amended_w :
    docker_flag false false true = true ∧
    choose_exec_path false false true false = ExecPath.docker 300 ∧
    choose_exec_path false false false false = ExecPath.localFallback 60 :=
  ⟨by decide, (exec_fallback_amended false false false).2 (by decide),
   (exec_fallback_amended false false false).1⟩

/-- Claim C2 counterexample: submitting `{mode: custom, command: "rm -rf /"}`
returns 202 (not 400) and the job is created in the job table. -/
theorem cli_allowlist_cex :
    (execute_job [] c2request "job-1" "t0").1.http_status = 202 ∧
    (execute_job [] c2request "job-1" "t0").1.http_status ≠ 400 ∧
    (table_lookup (execute_job [] c2request "job-1" "t0").2 "job-1").isSome =
      true := by
  decide

/-- Claim C2 (amended): a cli-mode submission with a command outside the
allow-list is accepted — `/execute` replies 202 and creates the job in
`queued` state; the allow-list is enforced only at execution time, where
`execute_custom` refuses to spawn the command and returns exit code `-1`, so
the job terminates `failed` rather than being rejected with 400. -/
theorem cli_allowlist_amended (jobs : List (String × Job)) (data : ExecRequest)
    (fresh now : String) (hmode : data.mode = some "custom")
    (command args head : String) (rest : List String)
    (hsplit : pySplit command = head :: rest) (hblocked : head ∉ safe_commands) :
    (execute_job jobs data fresh now).1.http_status = 202 ∧
    (∃ id : String, (execute_job jobs data fresh now).1.job_id = some id ∧
      ∃ j : Job, table_lookup (execute_job jobs data fresh now).2 id = some j ∧
        j.status = "queued" ∧ j.mode = "custom") ∧
    execute_custom_decision command args =
      .rejected { exit_code := -1, stdout := "",
                  stderr := "Unsafe command: " ++ head } ∧
    (∀ (j : Job) (rt : Int) (t : String),
      (finalize_job j
        { exit_code := -1, stdout := "", stderr := "Unsafe command: " ++ head }
        rt t).1.status = "failed") := by
  have hm : data.mode.getD "ai" = "custom" := by rw [hmode]; rfl
  have hmem : ("custom" : String) ∈ valid_modes := by decide
  refine ⟨?_, ?_, ?_, ?_⟩
  · simp [execute_job, hm, hmem]
  · refine ⟨exec_job_id data fresh, ?_,
      exec_job_record data (exec_job_id data fresh) now, ?_, rfl, ?_⟩
    · simp [execute_job, hm, hmem]
    · simp only [execute_job, hm, hmem, if_pos]
      exact table_lookup_insert ..
    · simp [exec_job_record, hm]
  · simp [execute_custom_decision, hsplit, hblocked]
  · intro j rt t
    rw [finalize_job_status]
    norm_num

/-- Witness for the amended C2 on spec scenario 4. -/
theorem cli_allowlist_amended_w :
    pySplit "rm -rf /" = ["rm", "-rf", "/"] ∧
    ("rm" ∉ safe_commands) ∧
    (execute_job [] c2request "job-1" "t0").1.http_status = 202 ∧
    execute_custom_decision "rm -rf /" "" =
      .rejected { exit_code := -1, stdout := "",
                  stderr := "Unsafe command: rm" } := by
  have h := cli_allowlist_amended [] c2request "job-1" "t0" rfl
    "rm -rf /" "" "rm" ["-rf", "/"] (by decide) (by decide)
  exact ⟨by decide, by decide, h.1, h.2.2.1⟩

/-- Claim C4 counterexample: the timeout handler of the sandboxed path returns
an empty stdout — the partial output produced before the deadline is
discarded, not preserved. -/
theorem timeout_stdout_cex :
    (docker_timeout_result "hello\n" "" false).stdout = "" ∧
    (docker_timeout_result "hello\n" "" false).stdout ≠ "hello\n" ∧
    (docker_timeout_result "hello\n" "" false).exit_code = -1 ∧
    (docker_timeout_result "hello\n" "" false).stderr =
      "Execution timeout (300s)" := by
  decide

/-- Claim C4 (amended): the sandboxed deadline is 300 s (120 s for notebook
cells); on expiry the result carries the timeout sentinel exit code `-1` and a
descriptive stderr, and the job finalizes as `failed` — but partial stdout is
discarded (the returned stdout is empty). -/
theorem timeout_behavior_amended (captured_stdout captured_stderr : String)
    (ephemeral : Bool) (job : Job) (rt : Int) (t : String) :
    timeout_seconds ephemeral = (if ephemeral then 120 else 300) ∧
    (docker_timeout_result captured_stdout captured_stderr ephemeral).exit_code
      = -1 ∧
    (docker_timeout_result captured_stdout captured_stderr ephemeral).stderr =
      "Execution timeout (" ++ toString (timeout_seconds ephemeral) ++ "s)" ∧
    (docker_timeout_result captured_stdout captured_stderr ephemeral).stdout =
      "" ∧
    (finalize_job job
      (docker_timeout_result captured_stdout captured_stderr ephemeral) rt
      t).1.status = "failed" := by
  refine ⟨rfl, rfl, rfl, rfl, ?_⟩
  rw [finalize_job_status]
  norm_num [docker_timeout_result]

/-- Claim C5 counterexample: a `custom` job with an empty command is a job
that reaches a terminal state, yet neither runtime nor exit-code is ever set:
the allow-list gate raises `IndexError` before any try block, and the engine's
exception handler only sets `failed` and emits an event carrying the error —
contradicting the claim that every terminal job gets runtime and exit-code. -/
theorem terminal_state_cex :
    execute_custom_decision "" "" = CustomDecision.indexError ∧
    (run_custom_job emptyCmdJob noopRunArgv 1 "t").1.status = "failed" ∧
    (run_custom_job emptyCmdJob noopRunArgv 1 "t").1.runtime = none ∧
    (run_custom_job emptyCmdJob noopRunArgv 1 "t").1.exit_code = none ∧
    (run_custom_job emptyCmdJob noopRunArgv 1 "t").2.status = "failed" ∧
    (run_custom_job emptyCmdJob noopRunArgv 1 "t").2.runtime = none ∧
    (run_custom_job emptyCmdJob noopRunArgv 1 "t").2.exit_code = none ∧
    (run_custom_job emptyCmdJob noopRunArgv 1 "t").2.error =
      some "list index out of range" := by
  decide

/-- Claim C5 (amended): for every job whose mode handler returns a result, the
engine sets runtime and exit-code and makes the terminal state `completed` iff
the exit code equals 0 (failed otherwise), then emits a final status event
carrying that state — on both the generic job path and the notebook-cell
path; but a job whose execution raises an engine exception reaches the
terminal state `failed` with neither runtime nor exit-code set, and its final
status event carries only the error. -/
theorem terminal_state_spec (job : Job) (result : ExecResult) (rt : Int)
    (t : String) (err : String) :
    ((finalize_job job result rt t).1.status = "completed" ↔
      result.exit_code = 0) ∧
    ((finalize_job job result rt t).1.status = "completed" ∨
      (finalize_job job result rt t).1.status = "failed") ∧
    (finalize_job job result rt t).1.exit_code = some result.exit_code ∧
    (finalize_job job result rt t).1.runtime = some rt ∧
    (finalize_job job result rt t).2.status =
      (finalize_job job result rt t).1.status ∧
    (finalize_job job result rt t).2.exit_code = some result.exit_code ∧
    (finalize_job job result rt t).2.runtime = some rt ∧
    ((finalize_notebook_cell job result rt t).1.status = "completed" ↔
      result.exit_code = 0) ∧
    ((finalize_notebook_cell job result rt t).1.status = "completed" ∨
      (finalize_notebook_cell job result rt t).1.status = "failed") ∧
    (finalize_notebook_cell job result rt t).1.exit_code =
      some result.exit_code ∧
    (finalize_notebook_cell job result rt t).1.runtime = some rt ∧
    (finalize_notebook_cell job result rt t).2.status =
      (finalize_notebook_cell job result rt t).1.status ∧
    (fail_job_on_exception job err).1.status = "failed" ∧
    (fail_job_on_exception job err).1.runtime = job.runtime ∧
    (fail_job_on_exception job err).1.exit_code = job.exit_code ∧
    (fail_job_on_exception job err).2.status = "failed" ∧
    (fail_job_on_exception job err).2.runtime = none ∧
    (fail_job_on_exception job err).2.exit_code = none ∧
    (fail_job_on_exception job err).2.error = some err := by
  refine ⟨?_, ?_, finalize_job_exit job result rt t,
    finalize_job_runtime job result rt t, rfl, rfl, rfl, ?_, ?_, rfl, rfl, rfl,
    rfl, rfl, rfl, rfl, rfl, rfl, rfl⟩
  · rw [finalize_job_status]
    by_cases h : result.exit_code = 0 <;> simp [h]
  · rw [finalize_job_status]
    by_cases h : result.exit_code = 0 <;> simp [h]
  · by_cases h : result.exit_code = 0 <;> simp [finalize_notebook_cell, h]
  · by_cases h : result.exit_code = 0 <;> simp [finalize_notebook_cell, h]

/-- Claim C6 counterexample: for a job with empty stdout and empty stderr
(spec scenario 2, `sys.exit(2)`), no artifact file is written, yet
`stdout.txt` is still listed among the job's artifact names — the listing is
not conditioned on stdout being nonempty. -/
theorem stdout_artifact_cex :
    (save_outputs "" "").1 = [] ∧
    (save_outputs "" "").2 = ["stdout.txt"] ∧
    "stdout.txt" ∈ (save_outputs "" "").2 ∧
    "stdout.txt" ∉ (save_outputs "" "").1 ∧
    (finalize_job testJob
      { exit_code := 2, stdout := "", stderr := "",
        output_files := (save_outputs "" "").2 } 1 "t").1.output_files =
      ["stdout.txt"] := by
  decide

/-- Claim C6 (amended): the stdout artifact file is written iff stdout is
nonempty and the stderr artifact file iff stderr is nonempty, and
`stderr.txt` is listed among the job's artifact names iff stderr is nonempty —
but `stdout.txt` is always listed, whether or not a stdout artifact exists. -/
theorem artifact_listing_amended (stdout stderr : String) :
    ("stdout.txt" ∈ (save_outputs stdout stderr).1 ↔ stdout ≠ "") ∧
    ("stderr.txt" ∈ (save_outputs stdout stderr).1 ↔ stderr ≠ "") ∧
    ("stderr.txt" ∈ (save_outputs stdout stderr).2 ↔ stderr ≠ "") ∧
    "stdout.txt" ∈ (save_outputs stdout stderr).2 := by
  by_cases h1 : stdout = "" <;> by_cases h2 : stderr = "" <;>
    simp [save_outputs, h1, h2]

/-- Claim C9: the worker side of the key-exchange bootstrap.  On
`send_public_key` it records the client's public key and replies with its own
public key in the same message shape; on `send_aes_key` (wrapped under its
public key) it decrypts the symmetric key with its private key, stores it —
the secure channel is now established — and replies `aes_key_received`.
Neither step executes anything or closes the channel. -/
theorem key_exchange_protocol (run_sandbox : String → String → SandboxResult)
    (sessions : List (String × NodeSession)) (sid : String) (s : NodeSession)
    (hs : table_lookup sessions sid = some s) :
    (∀ pk : String,
      (handle_message run_sandbox sessions sid
        (.keyExchangeSendPublicKey pk)).sent =
          [NodeMsg.keyExchangeSendPublicKey s.crypto.public_key_pem] ∧
      table_lookup (handle_message run_sandbox sessions sid
        (.keyExchangeSendPublicKey pk)).sessions sid =
          some { s with remote_public_key := some pk } ∧
      (handle_message run_sandbox sessions sid
        (.keyExchangeSendPublicKey pk)).executed = [] ∧
      (handle_message run_sandbox sessions sid
        (.keyExchangeSendPublicKey pk)).channel_closed = false) ∧
    (∀ k : String,
      (handle_message run_sandbox sessions sid (.keyExchangeSendAesKey
        { under_public_key := s.crypto.public_key_pem,
          wrapped_key := k })).sent = [NodeMsg.keyExchangeAesKeyReceived] ∧
      table_lookup (handle_message run_sandbox sessions sid
        (.keyExchangeSendAesKey
          { under_public_key := s.crypto.public_key_pem,
            wrapped_key := k })).sessions sid =
          some { s with crypto := { s.crypto with aes_key := some k } } ∧
      (handle_message run_sandbox sessions sid (.keyExchangeSendAesKey
        { under_public_key := s.crypto.public_key_pem,
          wrapped_key := k })).executed = [] ∧
      (handle_message run_sandbox sessions sid (.keyExchangeSendAesKey
        { under_public_key := s.crypto.public_key_pem,
          wrapped_key := k })).channel_closed = false) := by
  constructor
  · intro pk
    simp only [handle_message, hs, get_public_key_pem]
    exact ⟨trivial, table_lookup_insert .., trivial, trivial⟩
  · intro k
    simp only [handle_message, hs, exchange_aes_key, if_pos]
    exact ⟨trivial, table_lookup_insert .., trivial, trivial⟩

/-- Witness for C9 on a concrete session table. -/
theorem key_exchange_protocol_w :
    table_lookup [("s1", sess0)] "s1" = some sess0 ∧
    (handle_message noopSandbox [("s1", sess0)] "s1"
      (.keyExchangeSendPublicKey "CPUB")).sent =
        [NodeMsg.keyExchangeSendPublicKey "WPUB"] ∧
    table_lookup (handle_message noopSandbox [("s1", sess0)] "s1"
      (.keyExchangeSendPublicKey "CPUB")).sessions "s1" =
        some { crypto := CryptoSession.fresh "WPUB",
               remote_public_key := some "CPUB" } ∧
    table_lookup (handle_message noopSandbox [("s1", sess0)] "s1"
      (.keyExchangeSendAesKey
        { under_public_key := "WPUB", wrapped_key := "K1" })).sessions "s1" =
        some { crypto := { public_key_pem := "WPUB", aes_key := some "K1" },
               remote_public_key := none } := by
  have h := key_exchange_protocol noopSandbox [("s1", sess0)] "s1" sess0
    (by decide)
  exact ⟨by decide, (h.1 "CPUB").1, (h.1 "CPUB").2.1, (h.2 "K1").2.1⟩

/-- Claim C10: a session processes at most one encrypted task.  Handling an
encrypted task decrypts and executes it once, sends the encrypted result,
closes the data channel and deletes the session from the session table; any
further message on the same session id — in particular a second encrypted
task — finds no session and is dropped without decrypting or executing
anything. -/
theorem single_task_per_session (run_sandbox : String → String → SandboxResult)
    (sessions : List (String × NodeSession)) (sid : String) (s : NodeSession)
    (k : String) (hs : table_lookup sessions sid = some s)
    (hk : s.crypto.aes_key = some k) (ct : AesCiphertext)
    (hct : ct.under_key = k) :
    (handle_message run_sandbox sessions sid
      (.encryptedTask ct)).channel_closed = true ∧
    table_lookup (handle_message run_sandbox sessions sid
      (.encryptedTask ct)).sessions sid = none ∧
    (handle_message run_sandbox sessions sid (.encryptedTask ct)).executed =
      [(task_code ct.plain, task_type_of ct.plain)] ∧
    (handle_message run_sandbox sessions sid (.encryptedTask ct)).sent =
      [NodeMsg.encryptedResult ⟨k, sandbox_result_plain run_sandbox
        (task_code ct.plain) (task_type_of ct.plain)⟩] ∧
    (∀ msg2 : ClientMsg,
      (handle_message run_sandbox (handle_message run_sandbox sessions sid
        (.encryptedTask ct)).sessions sid msg2).executed = [] ∧
      (handle_message run_sandbox (handle_message run_sandbox sessions sid
        (.encryptedTask ct)).sessions sid msg2).sent = [] ∧
      (handle_message run_sandbox (handle_message run_sandbox sessions sid
        (.encryptedTask ct)).sessions sid msg2).sessions =
        (handle_message run_sandbox sessions sid
          (.encryptedTask ct)).sessions ∧
      (handle_message run_sandbox (handle_message run_sandbox sessions sid
        (.encryptedTask ct)).sessions sid msg2).channel_closed = false) := by
  have hdec : decrypt_payload s.crypto ct = some ct.plain := by
    simp [decrypt_payload, hk, hct]
  have henc : ∀ p : PlainData, encrypt_payload s.crypto p =
      some ⟨k, p⟩ := by
    intro p
    simp [encrypt_payload, hk]
  have hred : handle_message run_sandbox sessions sid (.encryptedTask ct) =
      ⟨table_erase sessions sid,
       [NodeMsg.encryptedResult ⟨k, sandbox_result_plain run_sandbox
         (task_code ct.plain) (task_type_of ct.plain)⟩],
       [(task_code ct.plain, task_type_of ct.plain)], true⟩ := by
    simp only [handle_message, hs, hdec, henc, sandbox_result_plain]
  have hgone : table_lookup (handle_message run_sandbox sessions sid
      (.encryptedTask ct)).sessions sid = none := by
    rw [hred]
    exact table_lookup_erase ..
  refine ⟨by rw [hred], hgone, by rw [hred], by rw [hred], ?_⟩
  intro msg2
  rw [handle_message_no_session run_sandbox _ sid msg2 hgone]
  exact ⟨rfl, rfl, rfl, rfl⟩

/-- Witness for C10 on a concrete established session. -/
theorem single_task_per_session_w :
    (handle_message noopSandbox [("s1", sessK)] "s1"
      (.encryptedTask ⟨"K1", .task "print(1)" "python_code"⟩)).channel_closed =
      true ∧
    table_lookup (handle_message noopSandbox [("s1", sessK)] "s1"
      (.encryptedTask ⟨"K1", .task "print(1)" "python_code"⟩)).sessions "s1" =
      none ∧
    (handle_message noopSandbox (handle_message noopSandbox [("s1", sessK)]
      "s1" (.encryptedTask ⟨"K1", .task "print(1)" "python_code"⟩)).sessions
      "s1"
      (.encryptedTask ⟨"K1", .task "print(2)" "python_code"⟩)).executed =
      [] := by
  have h := single_task_per_session noopSandbox [("s1", sessK)] "s1" sessK
    "K1" (by decide) rfl ⟨"K1", .task "print(1)" "python_code"⟩ rfl
  exact ⟨h.1, h.2.1,
    (h.2.2.2.2 (.encryptedTask ⟨"K1", .task "print(2)" "python_code"⟩)).1⟩

end NeuraX
